import Mathlib

/-!
Shallow embedding of the album_collector_bot repository
(src/album_collector_bot/context.py and src/album_collector_bot/handlers.py).

The bot keeps, per user, an ordered list of pending media items and at most
one pending caption (UserData).  Handlers mutate this state in response to
inbound events.  Outbound transport calls (reply_text, copy, delete,
reply_media_group, delete_messages, callback answer) may raise TelegramError;
each handler is modelled as a pure function taking the current state, the
relevant fields of the inbound message, and one Bool per outbound call
recording whether that call succeeds.  A result field `escaped` records
whether a TelegramError propagated out of the handler (i.e. the call was not
wrapped in try/except in the source).  Output fields record which outbound
emissions the handler attempted and with what payload.
-/

/-- Media kind tag: InputMediaPhoto vs InputMediaVideo. -/
inductive MediaKind
  | photo
  | video
  deriving DecidableEq

/-- Embeds telegram.InputMediaPhoto / InputMediaVideo: a kind tag, an opaque
file reference (`media`), and an optional caption. -/
structure InputMedia where
  kind : MediaKind
  media : Nat
  caption : Option String
  deriving DecidableEq

/-- Embeds context.py MediaItem: the stored InputMedia plus the message id of
the echoed (copied) message. -/
structure MediaItem where
  item : InputMedia
  message_id : Nat
  deriving DecidableEq

/-- Embeds context.py CaptionItem. -/
structure CaptionItem where
  caption : String
  message_id : Nat
  deriving DecidableEq

/-- Embeds context.py UserData: ordered media list plus optional caption. -/
structure UserData where
  media_messages : List MediaItem
  caption_message : Option CaptionItem
  deriving DecidableEq

/-- Embeds UserData.clear: empties both fields. -/
def UserData.clear (_ : UserData) : UserData :=
  { media_messages := [], caption_message := none }

/-- The relevant fields of a telegram Message for these handlers: its id, its
photo size list (python truthiness: empty list means no photo), its optional
video, its optional caption, and its optional text (python truthiness: the
empty string counts as absent). -/
structure Message where
  message_id : Nat
  photo : List Nat
  video : Option Nat
  caption : Option String
  text : Option String
  deriving DecidableEq

/-- Embeds handlers.py _get_message_media: photo messages map to an
InputMediaPhoto built from the largest photo size (photo[-1]) and the
message caption; video messages map to an InputMediaVideo with the message
caption; anything else yields None. -/
def get_message_media (m : Message) : Option InputMedia :=
  match m.photo.getLast? with
  | some p => some { kind := .photo, media := p, caption := m.caption }
  | none =>
    match m.video with
    | some v => some { kind := .video, media := v, caption := m.caption }
    | none => none

/-- MediaGroupLimit.MIN_MEDIA_LENGTH from telegram.constants. -/
def MIN_MEDIA_LENGTH : Nat := 2

/-- MediaGroupLimit.MAX_MEDIA_LENGTH from telegram.constants. -/
def MAX_MEDIA_LENGTH : Nat := 10

/-- Embeds handlers.py cmd_start: clears the album state, then sends the
greeting inside try/except (so a transport failure never escapes).
Result: (final state, escaped). -/
def cmd_start (_st : UserData) (_replyOk : Bool) : UserData × Bool :=
  ({ media_messages := [], caption_message := none }, false)

/-- Embeds handlers.py add_media.  `copyOk` is whether Message.copy (the
echo with the Delete button) succeeds, `newId` the echoed message id it
returns on success, `_replyOk` whether the "Please send me a photo or a
video." prompt succeeds, `_deleteOk` whether deleting the original inbound
message succeeds.  All transport calls are inside try/except, so nothing
escapes; the MediaItem is appended only after a successful copy, referencing
the echoed message id. -/
def add_media (msg : Message) (st : UserData) (copyOk : Bool) (newId : Nat)
    (_replyOk : Bool) (_deleteOk : Bool) : UserData × Bool :=
  match get_message_media msg with
  | none => (st, false)
  | some it =>
    if copyOk then
      ({ st with media_messages := st.media_messages ++ [⟨it, newId⟩] }, false)
    else
      (st, false)

/-- Removes the first MediaItem whose message_id matches, leaving the list
unchanged when no item matches.  This is the effect of the loop in
handlers.py delete_media (iterate over a copy, list.remove the first match,
break). -/
def removeFirstById : List MediaItem → Nat → List MediaItem
  | [], _ => []
  | m :: rest, mid =>
    if m.message_id = mid then rest else m :: removeFirstById rest mid

/-- Embeds handlers.py delete_media: first awaits callback_query.answer()
(NOT wrapped in try/except, so its failure escapes the handler before any
state change); on success removes the first MediaItem matching the
button-bearing message id, then deletes that message inside try/except. -/
def delete_media (mid : Nat) (st : UserData) (answerOk : Bool)
    (_deleteOk : Bool) : UserData × Bool :=
  if answerOk then
    ({ st with media_messages := removeFirstById st.media_messages mid }, false)
  else
    (st, true)

/-- Embeds handlers.py add_description: if the message text is truthy
(present and nonempty), replace the caption with a new CaptionItem carrying
this text and this message id; otherwise no-op.  No transport calls. -/
def add_description (msg : Message) (st : UserData) : UserData :=
  match msg.text with
  | some t =>
    if t ≠ "" then
      { st with caption_message := some { caption := t, message_id := msg.message_id } }
    else st
  | none => st

/-- Embeds handlers.py update_message (edited messages): if the edited
message carries media (photo or video), every stored MediaItem whose
message_id matches gets its item replaced by the media extracted from the
edited message (id and position untouched); otherwise if it carries truthy
text and the stored caption matches the edited message id, only the caption
text is replaced.  No transport calls. -/
def update_message (msg : Message) (st : UserData) : UserData :=
  if msg.photo ≠ [] ∨ msg.video ≠ none then
    { st with media_messages := st.media_messages.map (fun m =>
        if m.message_id = msg.message_id then
          match get_message_media msg with
          | some it => { m with item := it }
          | none => m
        else m) }
  else
    match msg.text with
    | some t =>
      if t ≠ "" then
        match st.caption_message with
        | some c =>
          if msg.message_id = c.message_id then
            { st with caption_message := some { c with caption := t } }
          else st
        | none => st
      else st
    | none => st

/-- The tracked message ids handlers.py _clear_album_data batch-deletes:
every echoed media message id, then the caption origin id when a caption
exists. -/
def trackedIds (st : UserData) : List Nat :=
  st.media_messages.map (fun m => m.message_id) ++
    (match st.caption_message with
     | some c => [c.message_id]
     | none => [])

/-- Result of handlers.py _clear_album_data: the batch deletion attempted
(when a chat is present) and the state, cleared unconditionally even when
the deletion fails (delete_messages is inside try/except). -/
structure ClearResult where
  state : UserData
  deletedBatch : Option (List Nat)
  deriving DecidableEq

/-- Embeds handlers.py _clear_album_data: when a chat is present, attempt one
batch deletion of exactly the tracked ids (swallowing failure), then clear
the state unconditionally. -/
def clear_album_data (st : UserData) (chatPresent : Bool)
    (_deleteMsgsOk : Bool) : ClearResult :=
  { state := st.clear
    deletedBatch := if chatPresent then some (trackedIds st) else none }

/-- Result of cmd_collect: final state; whether the size-validation reply
was attempted; the grouped media sequence passed to reply_media_group when
that emission was attempted; the batch of ids passed to delete_messages when
that deletion was attempted; and whether a TelegramError escaped the
handler. -/
structure CollectResult where
  state : UserData
  validated : Bool
  emitted : Option (List InputMedia)
  deletedBatch : Option (List Nat)
  escaped : Bool
  deriving DecidableEq

/-- Embeds handlers.py cmd_collect.  Build the local list of stored
InputMedia references; if its length is outside
[MIN_MEDIA_LENGTH, MAX_MEDIA_LENGTH], reply with the validation message
(NOT wrapped in try/except: `replyOk = false` escapes) and return with the
state untouched.  Otherwise, when a caption is stored, rebuild the first
list entry as a fresh InputMedia carrying the stored caption text (the
stored MediaItem is not mutated).  Then, inside try/except: send the group;
on success run _clear_album_data (which attempts one batch deletion of the
tracked ids, swallows its failure, and clears the state); on send failure
the state is left untouched. -/
def cmd_collect (st : UserData) (replyOk : Bool) (sendGroupOk : Bool)
    (deleteMsgsOk : Bool) : CollectResult :=
  let media := st.media_messages.map (fun m => m.item)
  if ¬ (MIN_MEDIA_LENGTH ≤ media.length ∧ media.length ≤ MAX_MEDIA_LENGTH) then
    { state := st, validated := true, emitted := none, deletedBatch := none
      escaped := !replyOk }
  else
    let media2 :=
      match st.caption_message, media with
      | some c, m0 :: rest =>
        (match m0.kind with
         | .photo => ({ kind := .photo, media := m0.media, caption := some c.caption } : InputMedia)
         | .video => ({ kind := .video, media := m0.media, caption := some c.caption } : InputMedia)) :: rest
      | _, m => m
    if sendGroupOk then
      let cr := clear_album_data st true deleteMsgsOk
      { state := cr.state, validated := false, emitted := some media2
        deletedBatch := cr.deletedBatch, escaped := false }
    else
      { state := st, validated := false, emitted := some media2
        deletedBatch := none, escaped := false }

/-- Result of cmd_reset: final state, attempted batch deletion, escape flag. -/
structure ResetResult where
  state : UserData
  deletedBatch : Option (List Nat)
  escaped : Bool
  deriving DecidableEq

/-- Embeds handlers.py cmd_reset: run _clear_album_data (deletion attempted
and swallowed, state cleared unconditionally), then send the confirmation
reply, which is NOT wrapped in try/except: its failure escapes, though the
state has already been cleared. -/
def cmd_reset (st : UserData) (deleteMsgsOk : Bool) (replyOk : Bool) :
    ResetResult :=
  let cr := clear_album_data st true deleteMsgsOk
  { state := cr.state, deletedBatch := cr.deletedBatch, escaped := !replyOk }

/-- An abstract add/remove event on one album state, for the FIFO property:
an add is a successful add_media ingestion (echo succeeded, yielding echoed
id `newId`), a remove is a delete-button event (acknowledged). -/
inductive AlbumOp
  | add (msg : Message) (newId : Nat)
  | remove (mid : Nat)

/-- Applies one AlbumOp through the actual handlers (transport succeeding). -/
def applyOp (st : UserData) : AlbumOp → UserData
  | .add msg newId => (add_media msg st true newId true true).1
  | .remove mid => (delete_media mid st true true).1

/-- Applies a sequence of AlbumOps to the empty state. -/
def applyOps (ops : List AlbumOp) : UserData :=
  ops.foldl applyOp { media_messages := [], caption_message := none }

/-- The submission-ordered list of MediaItems the add events of a sequence
record (an add of a non-media message records nothing). -/
def addedItems : List AlbumOp → List MediaItem
  | [] => []
  | .add msg newId :: rest =>
    match get_message_media msg with
    | some it => ⟨it, newId⟩ :: addedItems rest
    | none => addedItems rest
  | .remove _ :: rest => addedItems rest

/-- Spec-side step for the C5 refinement, written to the spec's words rather
than the handler code: an add event appends the recorded MediaItem to the
end (submission order), and a remove event deletes the first entry whose
message id matches, via the library List.eraseP — a no-op when no entry
matches.  This is the "submission-ordered list of added items with removed
entries deleted". -/
def specStep (xs : List MediaItem) : AlbumOp → List MediaItem
  | .add msg newId =>
    match get_message_media msg with
    | some it => xs ++ [⟨it, newId⟩]
    | none => xs
  | .remove mid => xs.eraseP (fun m => decide (m.message_id = mid))

/-- Spec-side result of a whole event sequence, from the empty album. -/
def specAlbumList (ops : List AlbumOp) : List MediaItem :=
  ops.foldl specStep []

/-! ### Helper lemmas -/

theorem removeFirstById_sublist (xs : List MediaItem) (mid : Nat) :
    List.Sublist (removeFirstById xs mid) xs := by
  induction xs with
  | nil => simp [removeFirstById]
  | cons m rest ih =>
    unfold removeFirstById
    by_cases h : m.message_id = mid
    · simp [h]
    · simpa [h] using ih.cons₂ m

theorem removeFirstById_nomatch (xs : List MediaItem) (mid : Nat)
    (h : ∀ m ∈ xs, m.message_id ≠ mid) : removeFirstById xs mid = xs := by
  induction xs with
  | nil => rfl
  | cons m rest ih =>
    unfold removeFirstById
    rw [if_neg (h m (by simp))]
    rw [ih (fun x hx => h x (by simp [hx]))]

theorem removeFirstById_split (as cs : List MediaItem) (b : MediaItem) (mid : Nat)
    (has : ∀ a ∈ as, a.message_id ≠ mid) (hb : b.message_id = mid) :
    removeFirstById (as ++ b :: cs) mid = as ++ cs := by
  induction as with
  | nil => simp [removeFirstById, hb]
  | cons a as ih =>
    simp only [List.cons_append]
    unfold removeFirstById
    rw [if_neg (has a (by simp))]
    rw [ih (fun x hx => has x (by simp [hx]))]

theorem add_description_media_messages (msg : Message) (u : UserData) :
    (add_description msg u).media_messages = u.media_messages := by
  unfold add_description
  rcases h : msg.text with _ | t <;> simp only [h]
  by_cases hne : t ≠ "" <;> simp [hne]

theorem add_description_eq (msg : Message) (u : UserData) (t : String)
    (ht : msg.text = some t) (hne : t ≠ "") :
    add_description msg u =
      { u with caption_message := some { caption := t, message_id := msg.message_id } } := by
  unfold add_description
  rw [ht]
  simp [hne]

/-! ### C7 -/

/-- C7: ingesting a media message, a failed echo (copy) records no MediaItem
and leaves the state exactly as before; a successful echo appends exactly one
MediaItem referencing the echoed message id. -/
theorem C7_echo_failure_records_nothing (msg : Message) (st : UserData)
    (newId : Nat) (rOk dOk : Bool) (it : InputMedia)
    (h : get_message_media msg = some it) :
    (add_media msg st false newId rOk dOk).1 = st ∧
    (add_media msg st true newId rOk dOk).1 =
      { st with media_messages :=
          st.media_messages ++ [{ item := it, message_id := newId }] } := by
  constructor
  · simp [add_media, h]
  · simp [add_media, h]

/-- Witness for C7 at a concrete photo message and state. -/
theorem C7_witness :
    (add_media { message_id := 7, photo := [3], video := none, caption := none, text := none }
      { media_messages := [], caption_message := none } false 20 true true).1 =
      { media_messages := [], caption_message := none } ∧
    (add_media { message_id := 7, photo := [3], video := none, caption := none, text := none }
      { media_messages := [], caption_message := none } true 20 true true).1 =
      { media_messages := [⟨⟨.photo, 3, none⟩, 20⟩], caption_message := none } := by
  have h := C7_echo_failure_records_nothing
    { message_id := 7, photo := [3], video := none, caption := none, text := none }
    { media_messages := [], caption_message := none } 20 true true
    { kind := .photo, media := 3, caption := none } (by decide)
  exact ⟨h.1, h.2⟩

/-! ### C8 -/

/-- C8: two successive text ingestions leave exactly the second message's
text and id as the caption (last-write-wins), and text ingestion never
touches the media list. -/
theorem C8_caption_last_write_wins (msg1 msg2 : Message) (st : UserData)
    (t2 : String) (h2 : msg2.text = some t2) (hne : t2 ≠ "") :
    add_description msg2 (add_description msg1 st) =
      { st with caption_message := some { caption := t2, message_id := msg2.message_id } } ∧
    ∀ (msg : Message) (u : UserData),
      (add_description msg u).media_messages = u.media_messages := by
  refine ⟨?_, add_description_media_messages⟩
  rw [add_description_eq msg2 _ t2 h2 hne]
  simp [add_description_media_messages]

/-- Witness for C8: captions "a" then "b" end with "b" and id 2. -/
theorem C8_witness :
    add_description
        { message_id := 2, photo := [], video := none, caption := none, text := some "b" }
        (add_description
          { message_id := 1, photo := [], video := none, caption := none, text := some "a" }
          { media_messages := [], caption_message := none }) =
      { media_messages := [], caption_message := some { caption := "b", message_id := 2 } } :=
  (C8_caption_last_write_wins
    { message_id := 1, photo := [], video := none, caption := none, text := some "a" }
    { message_id := 2, photo := [], video := none, caption := none, text := some "b" }
    { media_messages := [], caption_message := none } "b" rfl (by decide)).1

/-! ### cmd_collect helper lemmas -/

theorem collect_out_of_bounds (st : UserData) (rOk sOk dOk : Bool)
    (h : ¬ (MIN_MEDIA_LENGTH ≤ st.media_messages.length ∧
        st.media_messages.length ≤ MAX_MEDIA_LENGTH)) :
    cmd_collect st rOk sOk dOk =
      { state := st, validated := true, emitted := none, deletedBatch := none
        escaped := !rOk } := by
  simp [cmd_collect, List.length_map, h]

theorem collect_success_clears (st : UserData) (rOk dOk : Bool)
    (h1 : MIN_MEDIA_LENGTH ≤ st.media_messages.length)
    (h2 : st.media_messages.length ≤ MAX_MEDIA_LENGTH) :
    (cmd_collect st rOk true dOk).state = { media_messages := [], caption_message := none } ∧
    (cmd_collect st rOk true dOk).deletedBatch = some (trackedIds st) ∧
    (cmd_collect st rOk true dOk).validated = false ∧
    (cmd_collect st rOk true dOk).escaped = false := by
  simp [cmd_collect, List.length_map, h1, h2, clear_album_data, UserData.clear]

theorem collect_send_failure (st : UserData) (rOk dOk : Bool)
    (h1 : MIN_MEDIA_LENGTH ≤ st.media_messages.length)
    (h2 : st.media_messages.length ≤ MAX_MEDIA_LENGTH) :
    (cmd_collect st rOk false dOk).state = st ∧
    (cmd_collect st rOk false dOk).deletedBatch = none ∧
    (cmd_collect st rOk false dOk).escaped = false := by
  simp [cmd_collect, List.length_map, h1, h2]

theorem collect_emitted_caption (st : UserData) (c : CaptionItem) (rOk sOk dOk : Bool)
    (m0 : InputMedia) (rest : List InputMedia)
    (hc : st.caption_message = some c)
    (hmap : st.media_messages.map (fun m => m.item) = m0 :: rest)
    (h1 : MIN_MEDIA_LENGTH ≤ st.media_messages.length)
    (h2 : st.media_messages.length ≤ MAX_MEDIA_LENGTH) :
    (cmd_collect st rOk sOk dOk).emitted =
      some ({ kind := m0.kind, media := m0.media, caption := some c.caption } :: rest) := by
  have hL : st.media_messages.length = rest.length + 1 := by
    have h := congrArg List.length hmap
    simpa using h
  have hb1 : MIN_MEDIA_LENGTH ≤ rest.length + 1 := hL ▸ h1
  have hb2 : rest.length + 1 ≤ MAX_MEDIA_LENGTH := hL ▸ h2
  obtain ⟨k, md, cp⟩ := m0
  cases sOk <;> cases k <;>
    simp [cmd_collect, List.length_map, h1, h2, hc, hmap, hb1, hb2]

theorem collect_emitted_no_caption (st : UserData) (rOk sOk dOk : Bool)
    (hc : st.caption_message = none)
    (h1 : MIN_MEDIA_LENGTH ≤ st.media_messages.length)
    (h2 : st.media_messages.length ≤ MAX_MEDIA_LENGTH) :
    (cmd_collect st rOk sOk dOk).emitted = some (st.media_messages.map (fun m => m.item)) := by
  cases sOk <;> simp [cmd_collect, List.length_map, h1, h2, hc]

/-! ### C3 -/

/-- C3: when the stored media count is outside
[MIN_MEDIA_LENGTH, MAX_MEDIA_LENGTH], cmd_collect attempts the user-visible
validation reply and ends with the state (media list and caption) exactly
unchanged, no grouped emission and no deletion; when the count is within the
inclusive bounds and the grouped emission succeeds, the state is cleared. -/
theorem C3_collect_size_validation (st : UserData) (rOk sOk dOk : Bool) :
    (¬ (MIN_MEDIA_LENGTH ≤ st.media_messages.length ∧
        st.media_messages.length ≤ MAX_MEDIA_LENGTH) →
      (cmd_collect st rOk sOk dOk).state = st ∧
      (cmd_collect st rOk sOk dOk).validated = true ∧
      (cmd_collect st rOk sOk dOk).emitted = none ∧
      (cmd_collect st rOk sOk dOk).deletedBatch = none) ∧
    ((MIN_MEDIA_LENGTH ≤ st.media_messages.length ∧
        st.media_messages.length ≤ MAX_MEDIA_LENGTH) →
      (cmd_collect st rOk true dOk).state = { media_messages := [], caption_message := none }) := by
  constructor
  · intro h
    rw [collect_out_of_bounds st rOk sOk dOk h]
    exact ⟨rfl, rfl, rfl, rfl⟩
  · intro h
    exact (collect_success_clears st rOk dOk h.1 h.2).1

/-- Witness for C3: a one-item album is rejected unchanged; a two-item album
collects and clears. -/
theorem C3_witness :
    (cmd_collect { media_messages := [⟨⟨.photo, 1, none⟩, 11⟩], caption_message := none }
        true true true).state =
      { media_messages := [⟨⟨.photo, 1, none⟩, 11⟩], caption_message := none } ∧
    (cmd_collect { media_messages := [⟨⟨.photo, 1, none⟩, 11⟩, ⟨⟨.video, 2, none⟩, 12⟩], caption_message := none }
        true true true).state =
      { media_messages := [], caption_message := none } := by
  constructor
  · exact ((C3_collect_size_validation
      { media_messages := [⟨⟨.photo, 1, none⟩, 11⟩], caption_message := none }
      true true true).1 (by decide)).1
  · exact (C3_collect_size_validation
      { media_messages := [⟨⟨.photo, 1, none⟩, 11⟩, ⟨⟨.video, 2, none⟩, 12⟩], caption_message := none }
      true true true).2 (by decide)

/-! ### C4 -/

/-- C4: a collect whose grouped emission succeeds attempts one batch deletion
of exactly the tracked ids (every echoed media message id, plus the caption
origin id when a caption exists), and clears the state unconditionally —
also when that batch deletion fails (dOk is arbitrary). -/
theorem C4_collect_deletes_tracked_and_clears (st : UserData) (rOk dOk : Bool)
    (h1 : MIN_MEDIA_LENGTH ≤ st.media_messages.length)
    (h2 : st.media_messages.length ≤ MAX_MEDIA_LENGTH) :
    (cmd_collect st rOk true dOk).deletedBatch =
      some (st.media_messages.map (fun m => m.message_id) ++
        (match st.caption_message with
         | some c => [c.message_id]
         | none => [])) ∧
    (cmd_collect st rOk true dOk).state = { media_messages := [], caption_message := none } := by
  have h := collect_success_clears st rOk dOk h1 h2
  exact ⟨h.2.1, h.1⟩

/-- Witness for C4: the spec scenario — Photo(echo id 11), Video(echo id 12),
caption from message 13; batch deletion of exactly [11, 12, 13] is attempted
even though it fails (dOk = false), and the state is cleared. -/
theorem C4_witness :
    (cmd_collect { media_messages := [⟨⟨.photo, 1, none⟩, 11⟩, ⟨⟨.video, 2, none⟩, 12⟩], caption_message := some ⟨"hi", 13⟩ }
        true true false).deletedBatch = some [11, 12, 13] ∧
    (cmd_collect { media_messages := [⟨⟨.photo, 1, none⟩, 11⟩, ⟨⟨.video, 2, none⟩, 12⟩], caption_message := some ⟨"hi", 13⟩ }
        true true false).state = { media_messages := [], caption_message := none } := by
  have h := C4_collect_deletes_tracked_and_clears
    { media_messages := [⟨⟨.photo, 1, none⟩, 11⟩, ⟨⟨.video, 2, none⟩, 12⟩], caption_message := some ⟨"hi", 13⟩ }
    true false (by decide) (by decide)
  refine ⟨?_, h.2⟩
  rw [h.1]
  decide

/-! ### C9 -/

/-- C9: merging the caption touches only the freshly built emission list:
when the grouped emission fails, the stored state — including the first
MediaItem's un-merged reference — is exactly the original, and a retry on
that stored state re-attaches the stored caption to the first emitted entry
from scratch. -/
theorem C9_merge_is_local_retry_reattaches (st : UserData) (c : CaptionItem)
    (rOk dOk rOk2 dOk2 : Bool)
    (hc : st.caption_message = some c)
    (h1 : MIN_MEDIA_LENGTH ≤ st.media_messages.length)
    (h2 : st.media_messages.length ≤ MAX_MEDIA_LENGTH) :
    (cmd_collect st rOk false dOk).state = st ∧
    ∀ (m0 : InputMedia) (rest : List InputMedia),
      (cmd_collect st rOk false dOk).state.media_messages.map (fun m => m.item) = m0 :: rest →
      (cmd_collect ((cmd_collect st rOk false dOk).state) rOk2 true dOk2).emitted =
        some ({ kind := m0.kind, media := m0.media, caption := some c.caption } :: rest) := by
  have hst : (cmd_collect st rOk false dOk).state = st :=
    (collect_send_failure st rOk dOk h1 h2).1
  refine ⟨hst, ?_⟩
  intro m0 rest hmap
  rw [hst] at hmap
  rw [hst]
  exact collect_emitted_caption st c rOk2 true dOk2 m0 rest hc hmap h1 h2

/-- Witness for C9: a failed emission leaves the two stored photos with their
original (caption-free) references, and the retry emits the first entry
carrying the stored caption again. -/
theorem C9_witness :
    (cmd_collect ((cmd_collect { media_messages := [⟨⟨.photo, 1, none⟩, 11⟩, ⟨⟨.photo, 2, none⟩, 12⟩], caption_message := some ⟨"hi", 13⟩ }
        true false true).state) true true true).emitted =
      some [⟨.photo, 1, some "hi"⟩, ⟨.photo, 2, none⟩] := by
  have h := C9_merge_is_local_retry_reattaches
    { media_messages := [⟨⟨.photo, 1, none⟩, 11⟩, ⟨⟨.photo, 2, none⟩, 12⟩], caption_message := some ⟨"hi", 13⟩ }
    ⟨"hi", 13⟩ true true true true rfl (by decide) (by decide)
  exact h.2 ⟨.photo, 1, none⟩ [⟨.photo, 2, none⟩] (by rw [h.1]; decide)

/-! ### C1 -/

/-- C1 fails on the code: stored media references keep the captions their
inbound messages carried (handlers.py line 64 passes message.caption into
the InputMedia), so an emitted entry other than the first CAN carry a
caption.  Concretely: two stored photos, the second ingested with caption
"x", a stored album caption "hi" — the emitted group is
[Photo(caption="hi"), Photo(caption="x")], whose second entry carries a
caption, contradicting the claim. -/
theorem C1_counterexample :
    (cmd_collect { media_messages := [⟨⟨.photo, 1, none⟩, 11⟩, ⟨⟨.photo, 2, some "x"⟩, 12⟩], caption_message := some ⟨"hi", 13⟩ }
        true true true).emitted =
      some [⟨.photo, 1, some "hi"⟩, ⟨.photo, 2, some "x"⟩] ∧
    (InputMedia.caption ⟨.photo, 2, some "x"⟩ ≠ none) := by
  constructor
  · decide
  · decide

/-- C1 amended: the emitted grouped sequence equals the stored media
references in order, except that when a stored caption exists the first
reference is rebuilt with its kind and file reference preserved and its
caption replaced by the stored caption text; entries other than the first
keep exactly the reference captured at ingestion (including any caption the
inbound media message carried).  With no stored caption the emission is
exactly the stored references. -/
theorem C1_first_entry_caption_amended (st : UserData) (rOk sOk dOk : Bool)
    (h1 : MIN_MEDIA_LENGTH ≤ st.media_messages.length)
    (h2 : st.media_messages.length ≤ MAX_MEDIA_LENGTH) :
    (∀ c, st.caption_message = some c →
      ∀ (m0 : InputMedia) (rest : List InputMedia),
        st.media_messages.map (fun m => m.item) = m0 :: rest →
        (cmd_collect st rOk sOk dOk).emitted =
          some ({ kind := m0.kind, media := m0.media, caption := some c.caption } :: rest)) ∧
    (st.caption_message = none →
      (cmd_collect st rOk sOk dOk).emitted = some (st.media_messages.map (fun m => m.item))) := by
  constructor
  · intro c hc m0 rest hmap
    exact collect_emitted_caption st c rOk sOk dOk m0 rest hc hmap h1 h2
  · intro hc
    exact collect_emitted_no_caption st rOk sOk dOk hc h1 h2

/-- Witness for C1 amended, at the counterexample input: the second entry
keeps its ingestion caption "x" while the first gets the stored "hi". -/
theorem C1_witness :
    (cmd_collect { media_messages := [⟨⟨.photo, 1, none⟩, 11⟩, ⟨⟨.photo, 2, some "x"⟩, 12⟩], caption_message := some ⟨"hi", 13⟩ }
        true true true).emitted =
      some [⟨.photo, 1, some "hi"⟩, ⟨.photo, 2, some "x"⟩] := by
  have h := C1_first_entry_caption_amended
    { media_messages := [⟨⟨.photo, 1, none⟩, 11⟩, ⟨⟨.photo, 2, some "x"⟩, 12⟩], caption_message := some ⟨"hi", 13⟩ }
    true true true (by decide) (by decide)
  exact h.1 ⟨"hi", 13⟩ rfl ⟨.photo, 1, none⟩ [⟨.photo, 2, some "x"⟩] (by decide)

/-! ### C2 -/

/-- C2 fails on the code: three outbound calls are outside any try/except —
the callback answer at the start of delete_media (handlers.py line 116), the
size-validation reply in cmd_collect (line 198), and the confirmation reply
in cmd_reset (line 231).  Concretely, a transport error in the callback
answer propagates out of the delete-button handler. -/
theorem C2_counterexample :
    (delete_media 1 { media_messages := [], caption_message := none } false true).2 = true := by
  decide

/-- C2 amended: transport errors are caught inside the handler for every
outbound call except three — the delete-button acknowledgement, the collect
size-validation reply, and the reset confirmation reply; a transport error
in exactly those calls propagates out of its handler.  Stated as: start and
add-media never escape; delete_media escapes exactly when the answer call
fails; cmd_collect escapes exactly when the size check fails and the
validation reply fails; cmd_reset escapes exactly when the confirmation
reply fails. -/
theorem C2_escape_amended :
    (∀ (st : UserData) (rOk : Bool), (cmd_start st rOk).2 = false) ∧
    (∀ (msg : Message) (st : UserData) (cOk : Bool) (nid : Nat) (rOk dOk : Bool),
      (add_media msg st cOk nid rOk dOk).2 = false) ∧
    (∀ (mid : Nat) (st : UserData) (aOk dOk : Bool),
      (delete_media mid st aOk dOk).2 = true ↔ aOk = false) ∧
    (∀ (st : UserData) (rOk sOk dOk : Bool),
      (cmd_collect st rOk sOk dOk).escaped = true ↔
        (¬ (MIN_MEDIA_LENGTH ≤ st.media_messages.length ∧
            st.media_messages.length ≤ MAX_MEDIA_LENGTH) ∧ rOk = false)) ∧
    (∀ (st : UserData) (dOk rOk : Bool),
      (cmd_reset st dOk rOk).escaped = true ↔ rOk = false) := by
  refine ⟨fun st rOk => rfl, ?_, ?_, ?_, ?_⟩
  · intro msg st cOk nid rOk dOk
    cases hgm : get_message_media msg <;> cases cOk <;> simp [add_media, hgm]
  · intro mid st aOk dOk
    cases aOk <;> simp [delete_media]
  · intro st rOk sOk dOk
    by_cases hb : MIN_MEDIA_LENGTH ≤ st.media_messages.length ∧
        st.media_messages.length ≤ MAX_MEDIA_LENGTH
    · cases sOk
      · simp [(collect_send_failure st rOk dOk hb.1 hb.2).2.2, hb]
      · simp [(collect_success_clears st rOk dOk hb.1 hb.2).2.2.2, hb]
    · rw [collect_out_of_bounds st rOk sOk dOk hb]
      cases rOk <;> simp [hb]
  · intro st dOk rOk
    cases rOk <;> simp [cmd_reset]

/-! ### C5 -/

theorem applyOp_fold_sublist (ops : List AlbumOp) (st : UserData) (ys : List MediaItem)
    (h : List.Sublist st.media_messages ys) :
    List.Sublist (ops.foldl applyOp st).media_messages (ys ++ addedItems ops) := by
  induction ops generalizing st ys with
  | nil => simpa [addedItems] using h
  | cons op rest ih =>
    cases op with
    | add msg nid =>
      simp only [List.foldl_cons]
      cases hgm : get_message_media msg with
      | none =>
        have hstep : applyOp st (.add msg nid) = st := by
          simp [applyOp, add_media, hgm]
        rw [hstep]
        simpa [addedItems, hgm] using ih st ys h
      | some it =>
        have hstep : applyOp st (.add msg nid) =
            { st with media_messages := st.media_messages ++ [⟨it, nid⟩] } := by
          simp [applyOp, add_media, hgm]
        rw [hstep]
        have h2 : List.Sublist (st.media_messages ++ [(⟨it, nid⟩ : MediaItem)])
            (ys ++ [(⟨it, nid⟩ : MediaItem)]) :=
          h.append (List.Sublist.refl _)
        have h3 := ih { st with media_messages := st.media_messages ++ [⟨it, nid⟩] }
          (ys ++ [⟨it, nid⟩]) h2
        simpa [addedItems, hgm, List.append_assoc] using h3
    | remove mid =>
      simp only [List.foldl_cons]
      have hstep : applyOp st (.remove mid) =
          { st with media_messages := removeFirstById st.media_messages mid } := by
        simp [applyOp, delete_media]
      rw [hstep]
      have h2 : List.Sublist (removeFirstById st.media_messages mid) ys :=
        (removeFirstById_sublist _ _).trans h
      exact ih { st with media_messages := removeFirstById st.media_messages mid } ys h2

theorem removeFirstById_eq_eraseP (xs : List MediaItem) (mid : Nat) :
    removeFirstById xs mid = xs.eraseP (fun m => decide (m.message_id = mid)) := by
  induction xs with
  | nil => rfl
  | cons a l ih =>
    unfold removeFirstById
    by_cases h : a.message_id = mid
    · simp [List.eraseP_cons, h]
    · simp [List.eraseP_cons, h, ih]

theorem applyOp_fold_spec (ops : List AlbumOp) : ∀ (st : UserData),
    (ops.foldl applyOp st).media_messages = ops.foldl specStep st.media_messages := by
  induction ops with
  | nil => intro st; rfl
  | cons op rest ih =>
    intro st
    cases op with
    | add msg nid =>
      simp only [List.foldl_cons]
      cases hgm : get_message_media msg with
      | none =>
        have h1 : applyOp st (.add msg nid) = st := by
          simp [applyOp, add_media, hgm]
        have h2 : specStep st.media_messages (.add msg nid) = st.media_messages := by
          simp [specStep, hgm]
        rw [h1, h2]
        exact ih st
      | some it =>
        have h1 : applyOp st (.add msg nid) =
            { st with media_messages := st.media_messages ++ [⟨it, nid⟩] } := by
          simp [applyOp, add_media, hgm]
        have h2 : specStep st.media_messages (.add msg nid) =
            st.media_messages ++ [⟨it, nid⟩] := by
          simp [specStep, hgm]
        rw [h1, h2]
        exact ih { st with media_messages := st.media_messages ++ [⟨it, nid⟩] }
    | remove mid =>
      simp only [List.foldl_cons]
      have h1 : applyOp st (.remove mid) =
          { st with media_messages := removeFirstById st.media_messages mid } := by
        simp [applyOp, delete_media]
      have h2 : specStep st.media_messages (.remove mid) =
          removeFirstById st.media_messages mid :=
        (removeFirstById_eq_eraseP st.media_messages mid).symm
      rw [h1, h2]
      exact ih { st with media_messages := removeFirstById st.media_messages mid }

theorem specStep_fold_no_remove (ops : List AlbumOp) : ∀ (xs : List MediaItem),
    (∀ mid, AlbumOp.remove mid ∉ ops) → ops.foldl specStep xs = xs ++ addedItems ops := by
  induction ops with
  | nil => intro xs _; simp [addedItems]
  | cons op rest ih =>
    intro xs h
    cases op with
    | add msg nid =>
      have hrest : ∀ mid, AlbumOp.remove mid ∉ rest := by
        intro mid hmem
        exact h mid (by simp [hmem])
      simp only [List.foldl_cons]
      cases hgm : get_message_media msg with
      | none =>
        have hstep : specStep xs (.add msg nid) = xs := by simp [specStep, hgm]
        rw [hstep, ih xs hrest]
        simp [addedItems, hgm]
      | some it =>
        have hstep : specStep xs (.add msg nid) = xs ++ [⟨it, nid⟩] := by
          simp [specStep, hgm]
        rw [hstep]
        rw [ih _ hrest]
        simp [addedItems, hgm, List.append_assoc]
    | remove mid =>
      exact absurd (List.mem_cons_self _ _) (h mid)

/-- C5: over any sequence of add-media ingestions (echo succeeding) and
delete-button removals starting from the empty album, the resulting media
list EQUALS the spec-side pure computation — the submission-ordered added
items with each removal deleting the first matching entry (no-op when
absent); in particular it is an order-preserving subsequence of the
submission-ordered added items, and a removal-free sequence yields exactly
all added items in submission order.  Finally, a removal whose id matches
no stored item leaves the handler state unchanged. -/
theorem C5_fifo_order (ops : List AlbumOp) :
    (applyOps ops).media_messages = specAlbumList ops ∧
    List.Sublist (applyOps ops).media_messages (addedItems ops) ∧
    ((∀ mid, AlbumOp.remove mid ∉ ops) →
      (applyOps ops).media_messages = addedItems ops) ∧
    ∀ (st : UserData) (mid : Nat) (dOk : Bool),
      (∀ m ∈ st.media_messages, m.message_id ≠ mid) →
      (delete_media mid st true dOk).1 = st := by
  have hspec : (applyOps ops).media_messages = specAlbumList ops := by
    simpa [applyOps, specAlbumList] using
      applyOp_fold_spec ops { media_messages := [], caption_message := none }
  refine ⟨hspec, ?_, ?_, ?_⟩
  · simpa [applyOps] using
      applyOp_fold_sublist ops { media_messages := [], caption_message := none } [] (by simp)
  · intro h
    rw [hspec]
    simpa [specAlbumList] using specStep_fold_no_remove ops [] h
  · intro st mid dOk h
    simp [delete_media, removeFirstById_nomatch st.media_messages mid h]

/-- Witness for C5: the handler fold over add Photo(echo 11), add Video
(echo 12), remove 11, add Photo(echo 13) yields exactly the spec list
[Video at 12, Photo at 13] — the added items in submission order with the
removed entry deleted — and removing an absent id 99 from a one-item album
is a no-op. -/
theorem C5_witness :
    (applyOps [AlbumOp.add { message_id := 1, photo := [5], video := none, caption := none, text := none } 11, AlbumOp.add { message_id := 2, photo := [], video := some 6, caption := none, text := none } 12, AlbumOp.remove 11, AlbumOp.add { message_id := 3, photo := [7], video := none, caption := some "c", text := none } 13]).media_messages =
      [⟨⟨.video, 6, none⟩, 12⟩, ⟨⟨.photo, 7, some "c"⟩, 13⟩] ∧
    (delete_media 99 { media_messages := [⟨⟨.photo, 1, none⟩, 11⟩], caption_message := none }
        true true).1 =
      { media_messages := [⟨⟨.photo, 1, none⟩, 11⟩], caption_message := none } := by
  constructor
  · rw [(C5_fifo_order [AlbumOp.add { message_id := 1, photo := [5], video := none, caption := none, text := none } 11, AlbumOp.add { message_id := 2, photo := [], video := some 6, caption := none, text := none } 12, AlbumOp.remove 11, AlbumOp.add { message_id := 3, photo := [7], video := none, caption := some "c", text := none } 13]).1]
    decide
  · exact (C5_fifo_order []).2.2.2
      { media_messages := [⟨⟨.photo, 1, none⟩, 11⟩], caption_message := none } 99 true (by decide)

/-! ### C6 -/

/-- C6: an edited message that carries media updates, position by position,
exactly the stored items whose message id matches — the stored id and the
position survive and only the item reference changes — and leaves the
caption alone; an edited message that carries text and matches the stored
caption id replaces only the caption text, keeping its id; an edit whose
message id is tracked nowhere in the state leaves the state unchanged. -/
theorem C6_edited_message_update (msg : Message) (st : UserData) :
    ((msg.photo ≠ [] ∨ msg.video ≠ none) →
      ∀ it, get_message_media msg = some it →
        (∀ i : Nat, (update_message msg st).media_messages[i]? =
          (st.media_messages[i]?).map (fun m =>
            if m.message_id = msg.message_id then { m with item := it } else m)) ∧
        (update_message msg st).caption_message = st.caption_message) ∧
    (msg.photo = [] → msg.video = none →
      ∀ t, msg.text = some t → t ≠ "" →
        ∀ c, st.caption_message = some c → msg.message_id = c.message_id →
          update_message msg st =
            { st with caption_message := some { caption := t, message_id := c.message_id } }) ∧
    ((∀ m ∈ st.media_messages, m.message_id ≠ msg.message_id) →
      (∀ c, st.caption_message = some c → c.message_id ≠ msg.message_id) →
      update_message msg st = st) := by
  refine ⟨?_, ?_, ?_⟩
  · intro hm it hgm
    constructor
    · intro i
      unfold update_message
      rw [if_pos hm]
      simp [List.getElem?_map, hgm]
    · unfold update_message
      rw [if_pos hm]
  · intro hp hv t ht hne c hc hid
    unfold update_message
    rw [if_neg (by simp [hp, hv])]
    simp [ht, hne, hc, hid]
  · intro hmed hcap
    unfold update_message
    by_cases hm : msg.photo ≠ [] ∨ msg.video ≠ none
    · rw [if_pos hm]
      have hmap : ∀ (l : List MediaItem), (∀ m ∈ l, m.message_id ≠ msg.message_id) →
          l.map (fun m =>
            if m.message_id = msg.message_id then
              match get_message_media msg with
              | some it => { m with item := it }
              | none => m
            else m) = l := by
        intro l
        induction l with
        | nil => intro _; rfl
        | cons a l ih =>
          intro hl
          simp only [List.map_cons]
          rw [if_neg (hl a (by simp))]
          rw [ih (fun x hx => hl x (by simp [hx]))]
      rw [hmap st.media_messages hmed]
    · rw [if_neg hm]
      rcases ht : msg.text with _ | t
      · simp
      · simp only []
        by_cases hne : t ≠ ""
        · rcases hc2 : st.caption_message with _ | c
          · simp [hne, hc2]
          · have hcid := hcap c hc2
            simp only [hne, hc2]
            rw [if_neg (fun h => hcid (Eq.symm h))]
            exact ite_self st
        · simp [hne]

/-- Witness for C6: editing the caption-origin message (id 13) to "new"
replaces only the caption text. -/
theorem C6_witness :
    update_message
        { message_id := 13, photo := [], video := none, caption := none, text := some "new" }
        { media_messages := [⟨⟨.photo, 1, none⟩, 11⟩], caption_message := some ⟨"hi", 13⟩ } =
      { media_messages := [⟨⟨.photo, 1, none⟩, 11⟩], caption_message := some ⟨"new", 13⟩ } := by
  have h := C6_edited_message_update
    { message_id := 13, photo := [], video := none, caption := none, text := some "new" }
    { media_messages := [⟨⟨.photo, 1, none⟩, 11⟩], caption_message := some ⟨"hi", 13⟩ }
  exact h.2.1 rfl rfl "new" rfl (by decide) ⟨"hi", 13⟩ rfl rfl

/-! ### C10 -/

/-- C10: with several stored items sharing one message id, a delete-button
event removes exactly the first match — later duplicates survive — while an
edited-media event updates the item reference of every stored entry whose id
matches. -/
theorem C10_first_match_removed_all_matches_updated
    (as cs : List MediaItem) (b : MediaItem) (cap : Option CaptionItem)
    (mid : Nat) (dOk : Bool) (msg : Message) (st : UserData)
    (has : ∀ a ∈ as, a.message_id ≠ mid) (hb : b.message_id = mid) :
    (delete_media mid { media_messages := as ++ b :: cs, caption_message := cap } true dOk).1 =
      { media_messages := as ++ cs, caption_message := cap } ∧
    ((msg.photo ≠ [] ∨ msg.video ≠ none) →
      ∀ it, get_message_media msg = some it →
        ∀ m ∈ (update_message msg st).media_messages,
          m.message_id = msg.message_id → m.item = it) := by
  constructor
  · simp [delete_media, removeFirstById_split as cs b mid has hb]
  · intro hm it hgm m hmem hid
    have hres : (update_message msg st).media_messages =
        st.media_messages.map (fun a =>
          if a.message_id = msg.message_id then
            match get_message_media msg with
            | some x => { a with item := x }
            | none => a
          else a) := by
      unfold update_message
      rw [if_pos hm]
    rw [hres] at hmem
    rcases List.mem_map.1 hmem with ⟨a, ha, rfl⟩
    by_cases hamid : a.message_id = msg.message_id
    · simp [hamid, hgm]
    · rw [if_neg hamid] at hid
      exact absurd hid hamid

/-- Witness for C10: ids [4, 5, 5]; deleting id 5 removes only the first
5-item and keeps the second. -/
theorem C10_witness :
    (delete_media 5
        { media_messages := [⟨⟨.photo, 1, none⟩, 4⟩, ⟨⟨.photo, 2, none⟩, 5⟩, ⟨⟨.video, 3, none⟩, 5⟩]
          caption_message := none } true true).1 =
      { media_messages := [⟨⟨.photo, 1, none⟩, 4⟩, ⟨⟨.video, 3, none⟩, 5⟩]
        caption_message := none } := by
  have h := C10_first_match_removed_all_matches_updated
    [⟨⟨.photo, 1, none⟩, 4⟩] [⟨⟨.video, 3, none⟩, 5⟩] ⟨⟨.photo, 2, none⟩, 5⟩ none 5 true
    { message_id := 0, photo := [], video := none, caption := none, text := none }
    { media_messages := [], caption_message := none }
    (by decide) rfl
  exact h.1
